import Mathlib

/-!
Verification development for the Datagent pipeline engine
(`src/backend/pipeline_executor.py` and
`src/backend/data_agent/dataset_orchestrator.py`).

The Python code is shallowly embedded: pandas DataFrames become a concrete
`Frame` value type (`df.copy()` is value copying, hence the identity in a pure
setting); the external collaborators — the generation gateway (`call_api`),
the Python `compile`/`exec` capsule, the filesystem and the subprocess used
for visualization — are abstracted as an `Env` record of functions, since
their behavior is environmental rather than part of this repository.
Everything the orchestration logic itself does (retry loop, branch order,
error strings, history bookkeeping, block validation, dependency resolution,
Kahn topological sort, prompt assembly) is translated statement by statement
from the source.
-/

namespace Datagent

instance {ε α : Type} [DecidableEq ε] [DecidableEq α] :
    DecidableEq (Except ε α) := fun a b =>
  match a, b with
  | .ok x, .ok y =>
      if h : x = y then .isTrue (by rw [h]) else .isFalse (by simp [h])
  | .error x, .error y =>
      if h : x = y then .isTrue (by rw [h]) else .isFalse (by simp [h])
  | .ok _, .error _ => .isFalse (by simp)
  | .error _, .ok _ => .isFalse (by simp)

/-- In-memory tabular value standing for a pandas DataFrame: column names plus
rows of cell strings.  Only shape, column list and cell content are relevant
to the orchestration logic, which never inspects cells itself. -/
structure Frame where
  columns : List String
  rows : List (List String)
deriving DecidableEq, Repr

/-- `df.shape` : (number of rows, number of columns). -/
def Frame.shape (f : Frame) : Nat × Nat := (f.rows.length, f.columns.length)

/-- Outcome of running a generated script against a (private copy of a)
Frame inside the `exec` capsule of `_execute_transformation`:
either a possibly-rebound dataframe or an uncaught fault message. -/
inductive ExecOutcome where
  | ok (df : Frame)
  | fault (msg : String)
deriving DecidableEq, Repr

/-- The structured recommendation obtained from the AI provider after
`_clean_ai_response`: the fields of the parsed JSON object that
`_execute_transformation` branches on — `code`, `libraries_needed` and
`save_result` (line 398 guards the post-success `to_csv` persistence on
it; Python truthiness becomes a `Bool`).  `transformation_type`,
`explanation`, `expected_changes` and `output_columns` are copied into
the result's presentational metadata only; `explanation` is kept, the
rest omitted. -/
structure AIRec where
  code : String
  librariesNeeded : List String
  explanation : String
  saveResult : Bool
deriving DecidableEq, Repr

/-- The structured content of a prompt sent to the generation gateway.
`_create_orchestration_prompt` is a pure formatting function of
(current dataset, user prompt); `_create_error_recovery_prompt` of
(current dataset, original prompt, failed code, error message).  The model
keeps the structured inputs and leaves the f-string rendering to the
gateway abstraction, since nothing in the repository branches on the
rendered text. -/
inductive GPrompt where
  | orchestration (df : Frame) (userPrompt : String)
  | recovery (df : Frame) (originalPrompt failedCode errorMsg : String)
deriving DecidableEq, Repr

/-- External collaborators of the orchestration core, abstracted as pure
functions.  `callApi` is indexed by the number of gateway calls already made,
so a single `Env` can describe a gateway whose answers vary over time
(e.g. "always fails", "succeeds on the second call").  `syntaxCheck` is
Python `compile(code, "<string>", "exec")`: `none` means the script parses,
`some e` is the `SyntaxError` text.  `runScript` is the `exec` capsule run
against a private copy of the current dataframe.  `loadFile` abstracts
`_load_input_sources`' path resolution and pandas readers (lines 154-180);
`saveTransformed` the `save_result`-guarded
`self.data.to_csv("data/transformed_<timestamp>.csv")` of
`_execute_transformation` (lines 397-402; `some e` is the exception text
of a failing write); `saveFinal` the `to_csv` in the output-block branch;
`writeLatestOk`, `writeLatestErr` and `vizOk` the visualization tail of
`_execute_destination_pipeline`. -/
structure Env where
  callApi : Nat → GPrompt → Except String AIRec
  providerConfigured : Bool
  syntaxCheck : String → Option String
  libInstalled : String → Bool
  runScript : String → Frame → ExecOutcome
  loadFile : String → Except String Frame
  saveTransformed : Frame → Option String
  saveFinal : Int → Frame → Option String
  writeLatestOk : Bool
  writeLatestErr : String
  vizOk : String → String → String → Bool

/-- The result dict built by `_execute_transformation`: the reported attempt
number (`transformation_info["attempt"] = attempt + 1`), the generated code,
and `execution_result` (`.ok message` for `{"status": "success"}`,
`.error e` for `{"error": e}`; the field is always assigned before return). -/
structure StepResult where
  attemptReported : Nat
  codeGenerated : String
  executionResult : Except String String
deriving DecidableEq, Repr

/-- One entry of `self.transformation_history` (timestamp omitted). -/
structure HistEntry where
  prompt : String
  aiRecommendation : AIRec
  result : StepResult
  attempts : Nat
  scriptOnly : Bool
  finalStatus : Option String
deriving DecidableEq, Repr

/-- Mutable state of a `DatasetOrchestrator`: the current dataset (None
until loaded), the `data_path` string, the transformation history, and an
instrumentation counter for the number of `call_api` invocations made. -/
structure OrchState where
  data : Option Frame
  dataPath : Option String
  history : List HistEntry
  gwCalls : Nat
deriving DecidableEq, Repr

/-- Fresh `DatasetOrchestrator` state (`__init__`). -/
def initOrchState : OrchState := ⟨none, none, [], 0⟩

/-- Return value of `orchestrate_transformation`: either a bare
`{"error": ...}` dict or the result dict of `_execute_transformation`. -/
inductive OrchResult where
  | error (msg : String)
  | step (r : StepResult)
deriving DecidableEq, Repr

/-- Default `max_retry_attempts` of `DatasetOrchestrator.__init__`. -/
def defaultMaxRetryAttempts : Nat := 2

/-- The `execution_result.get("status") == "success"` check of the retry
loop, on the embedded `execution_result`. -/
def isSuccess : Except String String → Bool
  | .ok _ => true
  | .error _ => false

/-- `DatasetOrchestrator._execute_transformation` (lines 302-407).
Branch order follows the source: empty code first, then script-only
syntax validation, then the library-import loop, then `exec` on a private
copy of the data.  On a successful `exec`, `self.data = modified_df` is
committed (line 380) and the success `execution_result` recorded *before*
the `save_result`-guarded `to_csv` (lines 397-402) runs inside the same
`try`: a failing save reaches the `except` at line 404, which overwrites
`execution_result` with `Code execution failed: ...` while the dataset
keeps the committed mutation.  The returned `Frame` is the value of
`self.data` after the call. -/
def executeTransformation (env : Env) (scriptOnly : Bool) (d : Frame)
    (rec : AIRec) (attempt : Nat) : StepResult × Frame :=
  if rec.code = "" then
    (⟨attempt + 1, rec.code, .error "No code generated by AI"⟩, d)
  else if scriptOnly then
    match env.syntaxCheck rec.code with
    | none =>
        (⟨attempt + 1, rec.code,
          .ok "Script generated and validated (not executed)"⟩, d)
    | some e =>
        (⟨attempt + 1, rec.code, .error ("Code syntax error: " ++ e)⟩, d)
  else
    match rec.librariesNeeded.find? (fun l => !env.libInstalled l) with
    | some lib =>
        (⟨attempt + 1, rec.code,
          .error ("Library " ++ lib ++ " not installed")⟩, d)
    | none =>
        match env.runScript rec.code d with
        | .ok df =>
          if rec.saveResult then
            match env.saveTransformed df with
            | none => (⟨attempt + 1, rec.code,
                .ok "Transformation completed successfully"⟩, df)
            | some e => (⟨attempt + 1, rec.code,
                .error ("Code execution failed: " ++ e)⟩, df)
          else
            (⟨attempt + 1, rec.code,
              .ok "Transformation completed successfully"⟩, df)
        | .fault e =>
            (⟨attempt + 1, rec.code,
              .error ("Code execution failed: " ++ e)⟩, d)

/-- The retry loop of `orchestrate_transformation` (lines 82-157),
written as structural recursion on the remaining number of loop
iterations (`fuel`; the Python `for attempt in range(R+1)` starts the
loop with `fuel = R + 1`, `attempt = 0`).  Branch chain exactly as in the
source: in script-only mode a non-empty generated script returns at once
(whether or not validation passed) and an empty one falls through the
whole `if/elif` chain, repeating the loop with the *unchanged* prompt;
otherwise success returns, a failed attempt with retries left rebuilds a
recovery prompt, and the last failed attempt is appended to history with
`final_status = "failed"`.  Falling out of the loop returns
`{"error": "Maximum retry attempts exceeded"}`.  Returns
(result, data, history, gateway-call count). -/
def orchestrateLoop (env : Env) (R : Nat) (scriptOnly : Bool)
    (prompt : String) :
    Nat → Nat → GPrompt → Frame → List HistEntry → Nat →
    OrchResult × Frame × List HistEntry × Nat
  | 0, _, _, d, hist, calls =>
      (.error "Maximum retry attempts exceeded", d, hist, calls)
  | fuel + 1, attempt, op, d, hist, calls =>
    match env.callApi calls op with
    | .error e => (.error e, d, hist, calls + 1)
    | .ok rec =>
      let (res, d') := executeTransformation env scriptOnly d rec attempt
      if scriptOnly then
        if rec.code ≠ "" then
          (.step res, d',
           hist ++ [⟨prompt, rec, res, attempt + 1, true, none⟩], calls + 1)
        else
          orchestrateLoop env R scriptOnly prompt fuel (attempt + 1) op d'
            hist (calls + 1)
      else if isSuccess res.executionResult then
        (.step res, d',
         hist ++ [⟨prompt, rec, res, attempt + 1, false, none⟩], calls + 1)
      else if attempt < R then
        let errMsg := match res.executionResult with
          | .error e => e
          | .ok _ => "Unknown error"
        orchestrateLoop env R scriptOnly prompt fuel (attempt + 1)
          (.recovery d' prompt res.codeGenerated errMsg) d' hist (calls + 1)
      else
        (.step res, d',
         hist ++ [⟨prompt, rec, res, attempt + 1, false, some "failed"⟩],
         calls + 1)

/-- `DatasetOrchestrator.orchestrate_transformation` (lines 73-157):
guards for a loaded dataset and a configured provider, then runs the
retry loop starting from the orchestration prompt. -/
def orchestrateTransformation (env : Env) (R : Nat) (scriptOnly : Bool)
    (st : OrchState) (prompt : String) : OrchResult × OrchState :=
  match st.data with
  | none => (.error "No dataset loaded", st)
  | some d =>
    if !env.providerConfigured then (.error "AI provider not configured", st)
    else
      let (res, d', hist, calls) :=
        orchestrateLoop env R scriptOnly prompt (R + 1) 0
          (.orchestration d prompt) d st.history st.gwCalls
      (res, ⟨some d', st.dataPath, hist, calls⟩)

/-! ## Pipeline executor (`src/backend/pipeline_executor.py`) -/

/-- One user-submitted block: the dictionary fields that
`PipelineExecutor` reads.  Absent keys are `none`; `pre_req` defaults to
the empty list (`block.get("pre_req", []) or []`). -/
structure Block where
  blockId : Option Int := none
  blockType : Option String := none
  preReq : List Int := []
  prompt : Option String := none
  csvSource : Option String := none
  filePath : Option String := none
  outputSource : Option String := none
  outputData : Option String := none
  emailType : Option String := none
  emailDest : Option String := none
  slackChannel : Option String := none
  slack : Option String := none
deriving DecidableEq, Repr

/-- The `blocks_json` argument of `execute_pipeline`: a bare list, an
object wrapping the list under a `blocks` key, or anything else. -/
inductive BlocksJson where
  | wrapped (bs : List Block)
  | list (bs : List Block)
  | other
deriving Repr

/-- Python `str.strip()` (no arguments): remove leading and trailing
whitespace.  Written over the character list so that it reduces
definitionally (core `String.trim` does not). -/
def pyStrip (s : String) : String :=
  ⟨((s.data.dropWhile Char.isWhitespace).reverse.dropWhile
      Char.isWhitespace).reverse⟩

/-- Python truthiness of an optional string (`None` and `""` are falsy). -/
def truthy : Option String → Bool
  | some s => s ≠ ""
  | none => false

/-- The required-field loop of `_parse_blocks` (lines 94-101); returns the
first violation's error message.  (The "each block must be a dictionary"
check cannot fire in this model, where every block is a `Block`.) -/
def checkRequiredFields : List Block → Option String
  | [] => none
  | b :: bs =>
    if b.blockId.isNone then some "Each block must have a \x27block_id\x27"
    else if b.blockType.isNone then
      some "Each block must have a \x27block_type\x27"
    else checkRequiredFields bs

/-- `PipelineExecutor._parse_blocks` (lines 85-103). -/
def parseBlocks : BlocksJson → Except String (List Block)
  | .wrapped bs | .list bs =>
    match checkRequiredFields bs with
    | some e => .error e
    | none => .ok bs
  | .other =>
    .error
      "Invalid blocks format. Provide a list of blocks or \x7b\x27blocks\x27: [...]\x7d"

/-- `self.block_map` plus the four per-type lists built by
`_categorize_blocks`. -/
structure Categorized where
  blockMap : List (Int × Block)
  inputBlocks : List Block
  processBlocks : List Block
  outputBlocks : List Block
  destinationBlocks : List Block
deriving Repr

/-- `self.block_map[bid]` on the insertion-ordered association list. -/
def lookupBlock (bm : List (Int × Block)) (bid : Int) : Option Block :=
  match bm.find? (fun p => p.1 == bid) with
  | some p => some p.2
  | none => none

/-- The block loop of `_categorize_blocks` (lines 115-139): duplicate-id
check first, then dispatch on the five recognized `block_type` values
(`visualization` blocks are accepted but put in no category list);
anything else is rejected as an unknown type.  The `blockId`/`blockType`
projections cannot fail after `_parse_blocks`; the impossible case is the
`KeyError` Python would raise. -/
def categorizeGo : List Block → Categorized → Except String Categorized
  | [], acc => .ok acc
  | b :: bs, acc =>
    match b.blockId, b.blockType with
    | some bid, some ty =>
      if (lookupBlock acc.blockMap bid).isSome then
        .error ("Duplicate block_id found: " ++ toString bid)
      else
        let acc := { acc with blockMap := acc.blockMap ++ [(bid, b)] }
        if ty = "input_source" then
          categorizeGo bs { acc with inputBlocks := acc.inputBlocks ++ [b] }
        else if ty = "process" then
          categorizeGo bs { acc with processBlocks := acc.processBlocks ++ [b] }
        else if ty = "output" then
          categorizeGo bs { acc with outputBlocks := acc.outputBlocks ++ [b] }
        else if ty = "destination" then
          categorizeGo bs
            { acc with destinationBlocks := acc.destinationBlocks ++ [b] }
        else if ty = "visualization" then
          categorizeGo bs acc
        else .error ("Unknown block_type: " ++ ty)
    | _, _ => .error "KeyError"

/-- `PipelineExecutor._categorize_blocks` (lines 105-141). -/
def categorizeBlocks (bs : List Block) : Except String Categorized :=
  categorizeGo bs ⟨[], [], [], [], []⟩

/-- `PipelineExecutor._load_input_sources` (lines 143-182).  The
`csv_source`/`file_path` fallback uses Python `or` truthiness; path
resolution, existence checks and the pandas readers (with their distinct
error messages) are the environment's `loadFile`. -/
def loadInputSources (env : Env) : List Block → Except String (List (Int × Frame))
  | [] => .ok []
  | b :: bs =>
    match b.blockId with
    | none => .error "KeyError"
    | some bid =>
      let fp := if truthy b.csvSource then b.csvSource else b.filePath
      if !truthy fp then
        .error ("input_source block " ++ toString bid ++
          " requires \x27csv_source\x27 field")
      else
        match env.loadFile (fp.getD "") with
        | .error e => .error e
        | .ok df =>
          match loadInputSources env bs with
          | .error e => .error e
          | .ok rest => .ok ((bid, df) :: rest)

/-- Pending work of the recursive `dfs` in `_get_dependency_chain`,
rendered with an explicit task stack so the traversal is structurally
recursive on fuel: `.visit bid` is the call `dfs(bid)`, `.post bid` the
`dependency_chain.append(block_id)` performed after its prerequisites. -/
inductive DfsTask where
  | visit (bid : Int)
  | post (bid : Int)
deriving DecidableEq, Repr

/-- The recursive `dfs` of `_get_dependency_chain` (lines 380-397) as a
task-stack loop: skip already-visited ids, reject ids missing from the
block map (first error wins, as in the source, where the error dict
propagates out of every enclosing call), otherwise mark the id visited,
visit its prerequisites left to right, then append the id to the chain.
Each step consumes one fuel; `dfsFuel` below over-approximates the total
number of tasks, so the fuel-exhaustion branch (Python's interpreter
recursion limit) is unreachable from `getDependencyChain`. -/
def depDfsRun (bm : List (Int × Block)) :
    Nat → List DfsTask → List Int → List Int →
    Except String (List Int × List Int)
  | _, [], vis, chain => .ok (vis, chain)
  | 0, _ :: _, _, _ => .error "maximum recursion depth exceeded"
  | fuel + 1, .post bid :: rest, vis, chain =>
    depDfsRun bm fuel rest vis (chain ++ [bid])
  | fuel + 1, .visit bid :: rest, vis, chain =>
    if bid ∈ vis then depDfsRun bm fuel rest vis chain
    else
      match lookupBlock bm bid with
      | none => .error ("Block " ++ toString bid ++ " referenced but not found")
      | some b =>
        depDfsRun bm fuel (b.preReq.map .visit ++ [.post bid] ++ rest)
          (bid :: vis) chain

/-- Upper bound on the number of tasks `depDfsRun` can process: one
initial visit, at most one expansion (hence one `.post`) per mapped
block, and one visit per prerequisite of an expanded block. -/
def dfsFuel (bm : List (Int × Block)) : Nat :=
  1 + bm.length + bm.foldl (fun n p => n + p.2.preReq.length) 0

/-- `PipelineExecutor._get_dependency_chain` (lines 375-404). -/
def getDependencyChain (bm : List (Int × Block)) (destId : Int) :
    Except String (List Int) :=
  match depDfsRun bm (dfsFuel bm) [.visit destId] [] [] with
  | .error e => .error e
  | .ok vc => .ok vc.2

/-- The dependency edges of `_topological_sort` (lines 412-419): iterating
the chain in order, each block contributes one `(prereq, block)` edge per
prerequisite that lies inside the chain. -/
def chainEdges (bm : List (Int × Block)) (blockIds : List Int) :
    List (Int × Int) :=
  blockIds.foldl (fun acc bid =>
    match lookupBlock bm bid with
    | some b =>
      acc ++ (b.preReq.filter (fun p => blockIds.contains p)).map
        (fun p => (p, bid))
    | none => acc) []

/-- The `for neighbor in adj_list[current]` body of Kahn's algorithm:
decrement each neighbor's in-degree (Python integers, hence `Int`) and
enqueue it when it reaches zero. -/
def kahnDecrement (indeg : Int → Int) (queue : List Int) :
    List Int → (Int → Int) × List Int
  | [] => (indeg, queue)
  | n :: ns =>
    let indeg' := fun i => if i = n then indeg n - 1 else indeg i
    let queue' := if indeg' n = 0 then queue ++ [n] else queue
    kahnDecrement indeg' queue' ns

/-- The `while queue` loop of Kahn's algorithm (lines 425-432).  Each
iteration pops one id and every id is enqueued at most once, so a fuel of
`|blockIds]| + 1` never runs out. -/
def kahnRun (adj : Int → List Int) :
    Nat → (Int → Int) → List Int → List Int → List Int
  | 0, _, _, result => result
  | _ + 1, _, [], result => result
  | fuel + 1, indeg, cur :: rest, result =>
    let (indeg', queue') := kahnDecrement indeg rest (adj cur)
    kahnRun adj fuel indeg' queue' (result ++ [cur])

/-- `PipelineExecutor._topological_sort` (lines 406-438): in-degree /
ready-queue (Kahn) with the initial queue in `block_ids` order, followed
by the length-shortfall cycle check. -/
def topologicalSort (bm : List (Int × Block)) (blockIds : List Int) :
    Except String (List Int) :=
  let edges := chainEdges bm blockIds
  let indeg : Int → Int := fun i =>
    ((edges.filter (fun e => e.2 == i)).length : Int)
  let adj : Int → List Int := fun i =>
    (edges.filter (fun e => e.1 == i)).map (fun e => e.2)
  let queue := blockIds.filter (fun bid => indeg bid == 0)
  let result := kahnRun adj (blockIds.length + 1) indeg queue []
  if result.length ≠ blockIds.length then
    .error "Cyclic dependencies detected in pipeline"
  else .ok result

/-- Python `str(list_of_ints)`, as interpolated into the contextual
prompt for `list(self.pipeline_sources.keys())`. -/
def pyIntList (xs : List Int) : String :=
  "[" ++ String.intercalate ", " (xs.map toString) ++ "]"

/-- `for i, step in enumerate(executed_steps, 1)` rendered as
`- Step {i}: {step}` lines. -/
def stepLines : Nat → List String → List String
  | _, [] => []
  | i, desc :: ss => ("- Step " ++ toString i ++ ": " ++ desc) :: stepLines (i + 1) ss

/-- `PipelineExecutor._build_contextual_prompt` (lines 440-453). -/
def buildContextualPrompt (prompt : String) (executedSteps : List String)
    (sourceKeys : List Int) : String :=
  if executedSteps = [] then
    prompt ++ "\n(Available sources: " ++ pyIntList sourceKeys ++ ")"
  else
    String.intercalate "\n"
      (["Previous pipeline steps:"] ++ stepLines 1 executedSteps ++
       ["- Available sources: " ++ pyIntList sourceKeys, "",
        "Current request: " ++ prompt])

/-- `final_cleaned_file` info recorded by the output-block branch
(`path` kept relative; the source stores the absolute path). -/
structure FileInfo where
  path : String
  filename : String
  blockId : Int
deriving DecidableEq, Repr

/-- `PipelineExecutor._get_data_preview` output (lines 455-464). -/
structure DataPreview where
  shape : Nat × Nat
  columns : List String
  headRows : List (List String)
deriving DecidableEq, Repr

/-- `PipelineExecutor._get_data_preview`. -/
def getDataPreview (df : Frame) : DataPreview :=
  ⟨⟨df.rows.length, df.columns.length⟩, df.columns, df.rows.take 3⟩

/-- Status of the `make_graph` visualization dispatch at the end of
`_execute_destination_pipeline` (subprocess details abstracted into
`Env.vizOk`). -/
structure VizSend where
  status : String
  reason : Option String
deriving DecidableEq, Repr

/-- The value `_execute_destination_pipeline` hands back to
`execute_pipeline`: a bare `{"error": ...}` dict (from chain resolution or
topological sort), a block failure dict with `failed_block` /`prompt`/
`destination` keys, a per-destination success dict, or an uncaught Python
exception (`raise`) that the caller's `try` turns into a pipeline error. -/
inductive DestResult where
  | err (msg : String)
  | failed (error : String) (failedBlock : Int) (prompt : Option String)
      (destination : Int)
  | ok (destinationId : Int) (executionOrder : List Int)
      (finalPreview : Option DataPreview) (finalCleanedFile : FileInfo)
      (vizSend : VizSend)
  | raise (msg : String)
deriving DecidableEq, Repr

/-- One entry of `self.execution_history` (timestamp omitted).  Because the
recorded dict aliases the live `executed_steps` list, the entry reflects the
step appended afterwards by the visualization-tail CSV write. -/
structure HistRecord where
  destinationId : Int
  emailType : Option String
  outputData : Option String
  emailDest : Option String
  executionOrder : List Int
  executedSteps : List String
  finalShape : Option (Nat × Nat)
deriving DecidableEq, Repr

/-- The loop-local variables of `_execute_destination_pipeline`:
`current_data`, `executed_steps`, the shared orchestrator, `viz_prompt`,
and `final_cleaned_file` (unassigned until an output block saves). -/
structure DestLoopState where
  currentData : Option Frame
  steps : List String
  orch : OrchState
  vizPrompt : Option String
  finalFile : Option FileInfo
deriving Repr

/-- Result of walking the execution order: fall out of the loop, or an
early `return` of a failure dict (the orchestrator keeps whatever state it
had accumulated). -/
inductive BlocksStep where
  | done (s : DestLoopState)
  | abort (res : DestResult) (orch : OrchState)
deriving Repr

/-- The `for block_id in execution_order` loop of
`_execute_destination_pipeline` (lines 208-295).  `input_source` rebinds
the working dataset to the preloaded source; `process` skips
blank prompts, otherwise delegates the contextual prompt to
`orchestrate_transformation` (defaults: `R = 2`, script-only off) and
aborts on an error result; `output` records a delivery step and saves the
current dataset (failure aborts); `visualization` captures a non-blank
prompt; `destination` matches no branch and is a no-op. -/
def execBlocks (env : Env) (sources : List (Int × Frame))
    (bm : List (Int × Block)) (destId : Int) :
    List Int → DestLoopState → BlocksStep
  | [], s => .done s
  | bid :: rest, s =>
    match lookupBlock bm bid with
    | none => .abort (.raise ("KeyError: " ++ toString bid)) s.orch
    | some b =>
      match b.blockType with
      | some "input_source" =>
        match sources.find? (fun p => p.1 == bid) with
        | none => .abort (.raise ("KeyError: " ++ toString bid)) s.orch
        | some sp =>
          let orch' : OrchState :=
            { s.orch with data := some sp.2, dataPath := some (toString bid) }
          execBlocks env sources bm destId rest
            { s with currentData := some sp.2, orch := orch',
                     steps := s.steps ++
                       ["Loaded input source " ++ toString bid] }
      | some "process" =>
        let prompt := pyStrip (b.prompt.getD "")
        if prompt = "" then execBlocks env sources bm destId rest s
        else
          let ctx := buildContextualPrompt prompt s.steps
            (sources.map (fun p => p.1))
          match orchestrateTransformation env defaultMaxRetryAttempts false
              s.orch ctx with
          | (.error e, orch') =>
            .abort (.failed e bid (some prompt) destId) orch'
          | (.step r, orch') =>
            match r.executionResult with
            | .error e => .abort (.failed e bid (some prompt) destId) orch'
            | .ok _ =>
              execBlocks env sources bm destId rest
                { s with currentData := orch'.data, orch := orch',
                         steps := s.steps ++
                           ["Block " ++ toString bid ++ ": " ++ prompt] }
      | some "output" =>
        let os := pyStrip (b.outputSource.getD "")
        let od := pyStrip (b.outputData.getD "")
        let s :=
          { s with steps := s.steps ++
            [if os ≠ "" ∧ od ≠ "" then
               (if os = "email" then "Prepared data for email delivery to " ++ od
                else if os = "slack" then
                  "Prepared data for Slack delivery to " ++ od
                else "Prepared data for " ++ os ++ " delivery to " ++ od)
             else "Output block " ++ toString bid ++
               " processed (no destination specified)"] }
        match s.currentData with
        | none => execBlocks env sources bm destId rest s
        | some df =>
          match env.saveFinal bid df with
          | some e =>
            .abort (.failed ("Failed to save final dataset for output block "
              ++ toString bid ++ ": " ++ e) bid none destId) s.orch
          | none =>
            let fname := "clean_" ++ toString bid ++ ".csv"
            execBlocks env sources bm destId rest
              { s with finalFile := some ⟨"data/" ++ fname, fname, bid⟩,
                       steps := s.steps ++ ["Saved final dataset: " ++ fname] }
      | some "visualization" =>
        let v := pyStrip (b.prompt.getD "")
        if v ≠ "" then
          execBlocks env sources bm destId rest
            { s with vizPrompt := some v,
                     steps := s.steps ++
                       ["Visualization prompt captured from block " ++
                        toString bid] }
        else
          execBlocks env sources bm destId rest
            { s with steps := s.steps ++
              ["Visualization block " ++ toString bid ++
               " present with empty prompt"] }
      | _ => execBlocks env sources bm destId rest s

/-- `PipelineExecutor._execute_destination_pipeline` (lines 184-373):
dependency chain, topological sort, the block loop, the
execution-history record, the visualization tail (latest-CSV write and
`make_graph` dispatch), and the final per-destination dict — whose
`final_cleaned_file` key raises `NameError` when no output block ever
assigned it. -/
def executeDestinationPipeline (env : Env) (sources : List (Int × Frame))
    (bm : List (Int × Block)) (dest : Block) (destId : Int)
    (orch : OrchState) (execHist : List HistRecord) :
    DestResult × OrchState × List HistRecord :=
  match getDependencyChain bm destId with
  | .error e => (.err e, orch, execHist)
  | .ok chain =>
    match topologicalSort bm chain with
    | .error e => (.err e, orch, execHist)
    | .ok order =>
      match execBlocks env sources bm destId order ⟨none, [], orch, none, none⟩ with
      | .abort res orch' => (res, orch', execHist)
      | .done s =>
        let writeSteps := match s.currentData with
          | none => []
          | some _ =>
            [if env.writeLatestOk then
               "Wrote latest dataset for visualization: output/1_latest.csv"
             else "Warning: failed to write output/1_latest.csv: " ++
               env.writeLatestErr]
        let steps' := s.steps ++ writeSteps
        let record : HistRecord :=
          ⟨destId, dest.emailType, dest.outputData, dest.emailDest, order,
           steps', s.currentData.map Frame.shape⟩
        let vizSend : VizSend :=
          match (if truthy dest.emailDest then
                   some ("email", dest.emailDest.getD "")
                 else if truthy dest.slackChannel then
                   some ("slack", dest.slackChannel.getD "")
                 else if truthy dest.slack then
                   some ("slack", dest.slack.getD "")
                 else none) with
          | some mv =>
            let vp := s.vizPrompt.getD
              "Generate a meaningful financial insight chart highlighting trends and anomalies."
            if env.vizOk vp mv.1 mv.2 then ⟨"sent", none⟩ else ⟨"failed", none⟩
          | none => ⟨"skipped", some "No destination provided in destination block"⟩
        match s.finalFile with
        | none =>
          (.raise "name \x27final_cleaned_file\x27 is not defined", s.orch,
           execHist ++ [record])
        | some fcf =>
          (.ok destId order (s.currentData.map getDataPreview) fcf vizSend,
           s.orch, execHist ++ [record])

/-- The overall return value of `execute_pipeline`: a bare error dict, the
first failing destination's failure dict, or the success envelope with
`destinations_processed`, per-destination results and the execution
history. -/
inductive PipeResult where
  | err (msg : String)
  | failed (error : String) (failedBlock : Int) (prompt : Option String)
      (destination : Int)
  | ok (destinationsProcessed : Nat) (results : List DestResult)
      (executionHistory : List HistRecord)
deriving DecidableEq, Repr

/-- The `for dest_block in destination_blocks` loop of `execute_pipeline`
(lines 63-72): run each destination in turn, return the first result that
carries an error (an uncaught exception becomes the
`Pipeline execution failed: ...` wrapper of the outer `try`). -/
def runDests (env : Env) (sources : List (Int × Frame))
    (bm : List (Int × Block)) (nDests : Nat) :
    List Block → List DestResult → OrchState → List HistRecord →
    PipeResult × OrchState × List HistRecord
  | [], results, orch, hist => (.ok nDests results hist, orch, hist)
  | d :: ds, results, orch, hist =>
    match d.blockId with
    | none => (.err "Pipeline execution failed: KeyError", orch, hist)
    | some destId =>
      match executeDestinationPipeline env sources bm d destId orch hist with
      | (.err e, orch', hist') => (.err e, orch', hist')
      | (.failed e fb p dd, orch', hist') => (.failed e fb p dd, orch', hist')
      | (.raise m, orch', hist') =>
        (.err ("Pipeline execution failed: " ++ m), orch', hist')
      | (r, orch', hist') =>
        runDests env sources bm nDests ds (results ++ [r]) orch' hist'

/-- `PipelineExecutor.execute_pipeline` (lines 30-83) on a freshly
constructed executor (as in the module-level `execute_pipeline`
convenience function): parse, categorize, load sources, then run every
destination.  Returns the result together with the final orchestrator
state and execution history. -/
def executePipeline (env : Env) (input : BlocksJson) :
    PipeResult × OrchState × List HistRecord :=
  match parseBlocks input with
  | .error e => (.err e, initOrchState, [])
  | .ok blocks =>
    match categorizeBlocks blocks with
    | .error e => (.err e, initOrchState, [])
    | .ok cat =>
      match loadInputSources env cat.inputBlocks with
      | .error e => (.err e, initOrchState, [])
      | .ok sources =>
        runDests env sources cat.blockMap cat.destinationBlocks.length
          cat.destinationBlocks [] initOrchState []

/-! ## Helper lemmas about the orchestrator -/

/-- A gateway response that parses to a non-empty script whose execution
faults on every dataset (and whose declared libraries all import):
the shape of responses in the "script execution fails on every attempt"
scenarios. -/
def allFailRec (env : Env) (resp : Except String AIRec) : Prop :=
  ∃ rec, resp = .ok rec ∧ rec.code ≠ "" ∧
    (∀ l ∈ rec.librariesNeeded, env.libInstalled l = true) ∧
    ∀ d, ∃ m, env.runScript rec.code d = .fault m

lemma executeTransformation_fault (env : Env) (d : Frame) (rec : AIRec)
    (attempt : Nat) (m : String) (hc : rec.code ≠ "")
    (hl : ∀ l ∈ rec.librariesNeeded, env.libInstalled l = true)
    (hr : env.runScript rec.code d = .fault m) :
    executeTransformation env false d rec attempt =
      (⟨attempt + 1, rec.code, .error ("Code execution failed: " ++ m)⟩, d) := by
  have hfind : rec.librariesNeeded.find? (fun l => !env.libInstalled l) = none := by
    rw [List.find?_eq_none]
    intro l hlmem
    simp [hl l hlmem]
  simp [executeTransformation, hc, hfind, hr]

/-- When the optional `save_result` persistence cannot fail, an error
`execution_result` implies the attempt left the dataset alone.  (Without
that proviso this is false of the program: a successful `exec` followed by
a failing `to_csv` yields an error result with the mutation committed.) -/
lemma executeTransformation_error_snd (env : Env) (so : Bool) (d : Frame)
    (rec : AIRec) (attempt : Nat) (e : String)
    (hsave : ∀ df2, env.saveTransformed df2 = none)
    (h : (executeTransformation env so d rec attempt).1.executionResult =
      .error e) :
    (executeTransformation env so d rec attempt).2 = d := by
  unfold executeTransformation at *
  by_cases hc : rec.code = "" <;> simp [hc] at h ⊢
  cases so <;> simp at h ⊢
  · cases hfind : rec.librariesNeeded.find? (fun l => !env.libInstalled l) <;>
      simp [hfind] at h ⊢
    cases hr : env.runScript rec.code d with
    | ok df2 =>
      cases hsv : rec.saveResult <;> simp [hr, hsv, hsave df2] at h ⊢
    | fault e2 => simp [hr] at h ⊢
  · cases hs : env.syntaxCheck rec.code <;> simp [hs] at h ⊢

lemma executeTransformation_scriptOnly_snd (env : Env) (d : Frame)
    (rec : AIRec) (attempt : Nat) :
    (executeTransformation env true d rec attempt).2 = d := by
  unfold executeTransformation
  by_cases hc : rec.code = "" <;> simp [hc]
  cases env.syntaxCheck rec.code <;> simp

/-- Under always-failing script execution the retry loop walks through all
its remaining iterations, makes one gateway call per iteration, and ends
with a failure record reporting `R + 1` attempts. -/
lemma orchestrateLoop_allFail (env : Env) (R : Nat) (prompt : String)
    (d : Frame)
    (H1 : ∀ i, allFailRec env (env.callApi i (.orchestration d prompt)))
    (H2 : ∀ i fc em, allFailRec env (env.callApi i (.recovery d prompt fc em))) :
    ∀ (fuel attempt : Nat) (op : GPrompt) (hist : List HistEntry) (calls : Nat),
      attempt + fuel = R + 1 → attempt ≤ R →
      (op = .orchestration d prompt ∨ ∃ fc em, op = .recovery d prompt fc em) →
      ∃ rec e, orchestrateLoop env R false prompt fuel attempt op d hist calls =
        (.step ⟨R + 1, rec.code, .error e⟩, d,
         hist ++ [⟨prompt, rec, ⟨R + 1, rec.code, .error e⟩, R + 1, false,
           some "failed"⟩],
         calls + fuel) := by
  intro fuel
  induction fuel with
  | zero => intro attempt op hist calls h1 h2 _; exact absurd h1 (by omega)
  | succ fuel ih =>
    intro attempt op hist calls h1 h2 hop
    have hresp : allFailRec env (env.callApi calls op) := by
      rcases hop with h | ⟨fc, em, h⟩ <;> subst h
      · exact H1 calls
      · exact H2 calls fc em
    obtain ⟨rec, hcall, hcode, hlibs, hrun⟩ := hresp
    obtain ⟨m, hm⟩ := hrun d
    have hexec := executeTransformation_fault env d rec attempt m hcode hlibs hm
    by_cases hlt : attempt < R
    · obtain ⟨rec', e', heq⟩ := ih (attempt + 1)
        (.recovery d prompt rec.code ("Code execution failed: " ++ m)) hist
        (calls + 1) (by omega) (by omega) (.inr ⟨_, _, rfl⟩)
      refine ⟨rec', e', ?_⟩
      have hn : calls + (fuel + 1) = calls + 1 + fuel := by omega
      simp only [orchestrateLoop, hcall, hexec, isSuccess, Bool.false_eq_true,
        if_false, if_pos hlt]
      rw [heq, hn]
    · have hattempt : attempt = R := by omega
      have hfuel : fuel = 0 := by omega
      subst hattempt hfuel
      refine ⟨rec, "Code execution failed: " ++ m, ?_⟩
      simp only [orchestrateLoop, hcall, hexec, isSuccess, Bool.false_eq_true,
        if_false, if_neg hlt]

/-- `orchestrate_transformation` with `R = 2` against an always-failing
capsule: three gateway calls, unchanged dataset, one appended failure
history entry reporting three attempts. -/
lemma orchestrate_allFail (env : Env) (st : OrchState) (d : Frame)
    (prompt : String) (hd : st.data = some d)
    (hp : env.providerConfigured = true)
    (H1 : ∀ i, allFailRec env (env.callApi i (.orchestration d prompt)))
    (H2 : ∀ i fc em, allFailRec env (env.callApi i (.recovery d prompt fc em))) :
    ∃ rec e,
      orchestrateTransformation env 2 false st prompt =
        (.step ⟨3, rec.code, .error e⟩,
         ⟨some d, st.dataPath,
          st.history ++ [⟨prompt, rec, ⟨3, rec.code, .error e⟩, 3, false,
            some "failed"⟩],
          st.gwCalls + 3⟩) := by
  obtain ⟨rec, e, heq⟩ := orchestrateLoop_allFail env 2 prompt d H1 H2 3 0
    (.orchestration d prompt) st.history st.gwCalls (by omega) (by omega)
    (.inl rfl)
  refine ⟨rec, e, ?_⟩
  simp [orchestrateTransformation, hd, hp, heq]

/-- In script-only mode the retry loop never changes the dataset. -/
lemma orchestrateLoop_scriptOnly_data (env : Env) (R : Nat) (prompt : String) :
    ∀ (fuel attempt : Nat) (op : GPrompt) (d : Frame) (hist : List HistEntry)
      (calls : Nat),
      (orchestrateLoop env R true prompt fuel attempt op d hist calls).2.1 = d := by
  intro fuel
  induction fuel with
  | zero => intro attempt op d hist calls; simp [orchestrateLoop]
  | succ fuel ih =>
    intro attempt op d hist calls
    rcases hcall : env.callApi calls op with e | rec
    · simp [orchestrateLoop, hcall]
    · rcases hexec : executeTransformation env true d rec attempt with ⟨res, d1⟩
      have hd1 : d1 = d := by
        have hs := executeTransformation_scriptOnly_snd env d rec attempt
        rw [hexec] at hs
        exact hs
      subst hd1
      by_cases hc : rec.code = ""
      · simp [orchestrateLoop, hcall, hexec, hc, ih]
      · simp [orchestrateLoop, hcall, hexec, hc]

/-- If the retry loop (in execution mode) ends in a step whose
`execution_result` is an error, the dataset is unchanged. -/
lemma orchestrateLoop_failure_data (env : Env) (R : Nat) (prompt : String)
    (hsave : ∀ df2, env.saveTransformed df2 = none) :
    ∀ (fuel attempt : Nat) (op : GPrompt) (d : Frame) (hist : List HistEntry)
      (calls : Nat) (r : StepResult) (d' : Frame) (hist' : List HistEntry)
      (calls' : Nat) (e : String),
      orchestrateLoop env R false prompt fuel attempt op d hist calls =
        (.step r, d', hist', calls') →
      r.executionResult = .error e → d' = d := by
  intro fuel
  induction fuel with
  | zero =>
    intro attempt op d hist calls r d' hist' calls' e heq _
    simp [orchestrateLoop] at heq
  | succ fuel ih =>
    intro attempt op d hist calls r d' hist' calls' e heq herr
    rcases hcall : env.callApi calls op with e2 | rec
    · simp [orchestrateLoop, hcall] at heq
    · rcases hexec : executeTransformation env false d rec attempt with ⟨res, d1⟩
      simp only [orchestrateLoop, hcall, hexec, Bool.false_eq_true,
        if_false] at heq
      by_cases hok : isSuccess res.executionResult = true
      · rw [if_pos hok] at heq
        simp only [Prod.mk.injEq, OrchResult.step.injEq] at heq
        obtain ⟨hr, hd, _, _⟩ := heq
        subst hr
        rw [herr] at hok
        simp [isSuccess] at hok
      · rw [if_neg hok] at heq
        have hres_err : ∃ e1, res.executionResult = .error e1 := by
          cases hres : res.executionResult with
          | ok v => rw [hres] at hok; simp [isSuccess] at hok
          | error e1 => exact ⟨e1, rfl⟩
        obtain ⟨e1, he1⟩ := hres_err
        have hd1 : d1 = d := by
          have := executeTransformation_error_snd env false d rec attempt e1
            hsave (by rw [hexec]; exact he1)
          rw [hexec] at this
          exact this
        subst hd1
        by_cases hlt : attempt < R
        · rw [if_pos hlt] at heq
          exact ih _ _ _ _ _ _ _ _ _ _ heq herr
        · rw [if_neg hlt] at heq
          simp only [Prod.mk.injEq] at heq
          exact heq.2.1.symm

/-! ## Spec-side definition for the contextual prompt builder -/

/-- The contextual prompt builder as §4.4 of the specification words it:
with prior steps present, include only the last 5 prior step
descriptions, oldest first, each numbered by its absolute index in the
full step list (same line format as the implementation). -/
def lastFiveContextualPrompt (instruction : String) (prior : List String)
    (sources : List Int) : String :=
  if prior = [] then
    instruction ++ "\n(Available sources: " ++ pyIntList sources ++ ")"
  else
    let lastFive := prior.drop (prior.length - 5)
    String.intercalate "\n"
      (["Previous pipeline steps:"] ++
       stepLines (prior.length - lastFive.length + 1) lastFive ++
       ["- Available sources: " ++ pyIntList sources, "",
        "Current request: " ++ instruction])

/-- What `_build_contextual_prompt` actually produces when prior steps
exist: every prior step description, oldest first, numbered from 1 by
absolute index. -/
def allStepsContextualPrompt (instruction : String) (prior : List String)
    (sources : List Int) : String :=
  if prior = [] then
    instruction ++ "\n(Available sources: " ++ pyIntList sources ++ ")"
  else
    String.intercalate "\n"
      (["Previous pipeline steps:"] ++
       prior.enum.map (fun p => "- Step " ++ toString (p.1 + 1) ++ ": " ++ p.2) ++
       ["- Available sources: " ++ pyIntList sources, "",
        "Current request: " ++ instruction])

lemma stepLines_enumFrom (ss : List String) : ∀ n k : Nat,
    stepLines (n + k + 1) ss =
      (List.enumFrom n ss).map
        (fun p => "- Step " ++ toString (p.1 + k + 1) ++ ": " ++ p.2) := by
  induction ss with
  | nil => intro n k; simp [stepLines]
  | cons x xs ih =>
    intro n k
    simp only [stepLines, List.enumFrom, List.map_cons]
    congr 1
    have h : n + k + 1 + 1 = (n + 1) + k + 1 := by omega
    rw [h, ih (n + 1) k]

lemma stepLines_enum (ss : List String) :
    stepLines 1 ss =
      ss.enum.map (fun p => "- Step " ++ toString (p.1 + 1) ++ ": " ++ p.2) := by
  have h := stepLines_enumFrom ss 0 0
  simpa [List.enum] using h

/-! ## Concrete fixtures used by witnesses and counterexamples -/

/-- A small concrete dataset. -/
def sampleFrame : Frame := ⟨["a", "b"], [["1", "2"], ["3", "4"]]⟩

/-- A gateway that always recommends the same non-empty script, with a
capsule that always faults; files load to `sampleFrame` and all
persistence succeeds. -/
def envAllFail : Env where
  callApi := fun _ _ => .ok ⟨"df = df.dropna()", [], "drop missing", false⟩
  providerConfigured := true
  syntaxCheck := fun _ => none
  libInstalled := fun _ => true
  runScript := fun _ _ => .fault "KeyError: missing column"
  loadFile := fun _ => .ok sampleFrame
  saveTransformed := fun _ => none
  saveFinal := fun _ _ => none
  writeLatestOk := true
  writeLatestErr := ""
  vizOk := fun _ _ _ => true

/-- Orchestrator state with `sampleFrame` loaded. -/
def loadedState : OrchState := ⟨some sampleFrame, none, [], 0⟩

/-- A gateway that always answers with an empty script. -/
def envEmptyScript : Env :=
  { envAllFail with callApi := fun _ _ => .ok ⟨"", [], "nothing", false⟩ }

/-! ## Claim theorems: orchestrator -/

/-- C1: for a transform step whose script execution fails on every attempt,
with the retry bound at its default `R = 2`, the orchestrator makes exactly
3 generation-gateway calls (1 initial + 2 retries) and ends by appending a
failure history record whose reported attempt count equals 3 (the step
result also reports attempt 3). -/
theorem retry_bound_respected (env : Env) (st : OrchState) (d : Frame)
    (prompt : String) (hd : st.data = some d)
    (hp : env.providerConfigured = true)
    (H : ∀ i gp, allFailRec env (env.callApi i gp)) :
    ∃ rec e,
      orchestrateTransformation env defaultMaxRetryAttempts false st prompt =
        (.step ⟨3, rec.code, .error e⟩,
         ⟨some d, st.dataPath,
          st.history ++ [⟨prompt, rec, ⟨3, rec.code, .error e⟩, 3, false,
            some "failed"⟩],
          st.gwCalls + 3⟩) :=
  orchestrate_allFail env st d prompt hd hp (fun i => H i _)
    (fun i fc em => H i _)

theorem retry_bound_respected_witness :
    ∃ rec e,
      orchestrateTransformation envAllFail defaultMaxRetryAttempts false
        loadedState "p" =
        (.step ⟨3, rec.code, .error e⟩,
         ⟨some sampleFrame, none,
          [⟨"p", rec, ⟨3, rec.code, .error e⟩, 3, false, some "failed"⟩],
          3⟩) := by
  have h := retry_bound_respected envAllFail loadedState sampleFrame "p" rfl rfl
    (fun i gp => ⟨⟨"df = df.dropna()", [], "drop missing", false⟩, rfl, by decide,
      by simp, fun d2 => ⟨"KeyError: missing column", rfl⟩⟩)
  simpa [loadedState] using h

/-- A dataset visibly different from `sampleFrame`, as a script's output. -/
def mutatedFrame : Frame := ⟨["a", "b"], [["1", "2"]]⟩

/-- A gateway whose scripts execute successfully and request
`save_result`, over a filesystem where the timestamped `to_csv` write
always fails. -/
def envSaveFail : Env where
  callApi := fun _ _ => .ok ⟨"df = df.head(1)", [], "trim", true⟩
  providerConfigured := true
  syntaxCheck := fun _ => none
  libInstalled := fun _ => true
  runScript := fun _ _ => .ok mutatedFrame
  loadFile := fun _ => .ok sampleFrame
  saveTransformed := fun _ =>
    some "[Errno 2] No such file or directory: 'data/transformed.csv'"
  saveFinal := fun _ _ => none
  writeLatestOk := true
  writeLatestErr := ""
  vizOk := fun _ _ _ => true

/-- C5 counterexample: a transform step whose scripts execute successfully
but whose `save_result` persistence fails on every attempt exhausts its
retries and ends in a failed step result — yet the dataset has been
promoted to the script's output, not left at its last successful
pre-step state. -/
theorem save_failure_mutates_dataset_counterexample :
    (orchestrateTransformation envSaveFail 2 false loadedState "p").1 =
      .step ⟨3, "df = df.head(1)",
        .error "Code execution failed: [Errno 2] No such file or directory: 'data/transformed.csv'"⟩
    ∧ (orchestrateTransformation envSaveFail 2 false loadedState "p").2.data =
      some mutatedFrame
    ∧ mutatedFrame ≠ sampleFrame := ⟨rfl, rfl, by decide⟩

/-- C5 (amended): a transform attempt whose script execution raises a fault
leaves the current dataset unchanged (the script ran against a private
copy); and provided the optional `save_result` persistence never fails, a
transform step that ends in a failed result leaves the orchestrator's
dataset at its last successful state.  (When a script succeeds and only
its `save_result` persistence fails, the attempt reports failure with the
mutation already committed — see the counterexample.) -/
theorem failed_attempt_preserves_dataset :
    (∀ (env : Env) (d : Frame) (rec : AIRec) (attempt : Nat) (m : String),
       env.runScript rec.code d = .fault m →
       (executeTransformation env false d rec attempt).2 = d)
  ∧ (∀ (env : Env) (R : Nat) (st : OrchState) (prompt : String)
       (r : StepResult) (st' : OrchState) (e : String),
       (∀ df2, env.saveTransformed df2 = none) →
       orchestrateTransformation env R false st prompt = (.step r, st') →
       r.executionResult = .error e → st'.data = st.data) := by
  constructor
  · intro env d rec attempt m hr
    by_cases hc : rec.code = ""
    · simp [executeTransformation, hc]
    · cases hfind : rec.librariesNeeded.find? (fun l => !env.libInstalled l) with
      | some lib => simp [executeTransformation, hc, hfind]
      | none => simp [executeTransformation, hc, hfind, hr]
  · intro env R st prompt r st' e hsave heq herr
    rcases hdata : st.data with _ | d
    · simp [orchestrateTransformation, hdata] at heq
    · rcases hprov : env.providerConfigured
      · simp [orchestrateTransformation, hdata, hprov] at heq
      · rcases hloop : orchestrateLoop env R false prompt (R + 1) 0
            (.orchestration d prompt) d st.history st.gwCalls with
          ⟨res, d2, hist2, calls2⟩
        simp only [orchestrateTransformation, hdata, hprov, hloop,
          Bool.not_true, Bool.false_eq_true, if_false] at heq
        obtain ⟨hres, hst⟩ := Prod.mk.injEq .. ▸ heq
        have hd2 : d2 = d :=
          orchestrateLoop_failure_data env R prompt hsave (R + 1) 0
            (.orchestration d prompt) d st.history st.gwCalls r d2 hist2
            calls2 e (by rw [hloop, hres]) herr
        rw [← hst]
        simp [hdata, hd2]

theorem failed_attempt_preserves_dataset_witness :
    (executeTransformation envAllFail false sampleFrame
        ⟨"df = df.dropna()", [], "drop missing", false⟩ 0).2 = sampleFrame ∧
    (orchestrateTransformation envAllFail 2 false loadedState "p").2.data =
      loadedState.data := by
  constructor
  · exact failed_attempt_preserves_dataset.1 envAllFail sampleFrame
      ⟨"df = df.dropna()", [], "drop missing", false⟩ 0 "KeyError: missing column" rfl
  · exact failed_attempt_preserves_dataset.2 envAllFail 2 loadedState "p"
      ⟨3, "df = df.dropna()",
        .error "Code execution failed: KeyError: missing column"⟩ _ _
      (fun df2 => rfl) rfl rfl

/-- C7: in script-only mode a transform step leaves the dataset exactly
unchanged (same shape, columns and content — `Frame` equality), whatever
the gateway returns and whatever the script contains. -/
theorem script_only_mode_non_mutating (env : Env) (R : Nat) (st : OrchState)
    (prompt : String) (d : Frame) (hd : st.data = some d) :
    (orchestrateTransformation env R true st prompt).2.data = some d := by
  rcases hprov : env.providerConfigured
  · simp [orchestrateTransformation, hd, hprov]
  · rcases hloop : orchestrateLoop env R true prompt (R + 1) 0
        (.orchestration d prompt) d st.history st.gwCalls with
      ⟨res, d2, hist2, calls2⟩
    have hd2 : d2 = d := by
      have h := orchestrateLoop_scriptOnly_data env R prompt (R + 1) 0
        (.orchestration d prompt) d st.history st.gwCalls
      rw [hloop] at h
      exact h
    simp [orchestrateTransformation, hd, hprov, hloop, hd2]

theorem script_only_mode_non_mutating_witness :
    (orchestrateTransformation envAllFail 2 true loadedState "p").2.data =
      some sampleFrame :=
  script_only_mode_non_mutating envAllFail 2 loadedState "p" sampleFrame rfl

/-- C10: calling `orchestrate_transformation` with no dataset loaded returns
the error `No dataset loaded` and leaves the orchestrator state untouched —
in particular no gateway call is made and no history entry is appended. -/
theorem no_dataset_loaded_guard (env : Env) (R : Nat) (so : Bool)
    (st : OrchState) (prompt : String) (h : st.data = none) :
    orchestrateTransformation env R so st prompt =
      (.error "No dataset loaded", st) := by
  simp [orchestrateTransformation, h]

theorem no_dataset_loaded_guard_witness :
    orchestrateTransformation envAllFail 2 false initOrchState "p" =
      (.error "No dataset loaded", initOrchState) :=
  no_dataset_loaded_guard envAllFail 2 false initOrchState "p" rfl

/-- C6 counterexample: in script-only mode with a gateway that returns an
empty script, a single transform step makes 3 generation-gateway calls
(at the default bound `R = 2`) and ends with the maximum-retries error —
not exactly one call, and the loop silently retried with the unchanged
prompt. -/
theorem script_only_single_call_counterexample :
    (orchestrateTransformation envEmptyScript 2 true loadedState "p").1 =
        .error "Maximum retry attempts exceeded" ∧
    (orchestrateTransformation envEmptyScript 2 true loadedState "p").2.gwCalls
        = 3 := ⟨rfl, rfl⟩

/-- C6 (amended): in script-only mode, a transform step whose first
generation response carries a non-empty script makes exactly one
generation-gateway call and ends the step immediately — a syntactic
validation failure ends it as a failure with the history recording one
attempt (no retry consumed); only when the response's script is empty does
the loop fall through and call the gateway again. -/
theorem script_only_single_generation_call (env : Env) (R : Nat)
    (st : OrchState) (d : Frame) (prompt : String) (rec : AIRec)
    (hd : st.data = some d) (hp : env.providerConfigured = true)
    (hc : env.callApi st.gwCalls (.orchestration d prompt) = .ok rec)
    (hne : rec.code ≠ "") :
    orchestrateTransformation env R true st prompt =
      (.step (executeTransformation env true d rec 0).1,
       ⟨some d, st.dataPath,
        st.history ++
          [⟨prompt, rec, (executeTransformation env true d rec 0).1, 1, true,
            none⟩],
        st.gwCalls + 1⟩)
    ∧ (∀ e, env.syntaxCheck rec.code = some e →
        (executeTransformation env true d rec 0).1.executionResult =
          .error ("Code syntax error: " ++ e)) := by
  constructor
  · rcases hexec : executeTransformation env true d rec 0 with ⟨res, d1⟩
    have hd1 : d1 = d := by
      have hs := executeTransformation_scriptOnly_snd env d rec 0
      rw [hexec] at hs
      exact hs
    subst hd1
    simp [orchestrateTransformation, hd, hp, orchestrateLoop, hc, hexec, hne]
  · intro e he
    simp [executeTransformation, hne, he]

/-- A gateway answering a syntactically broken script, to witness the
validation-failure clause. -/
def envBadSyntax : Env :=
  { envAllFail with
      callApi := fun _ _ => .ok ⟨"def broken(", [], "oops", false⟩,
      syntaxCheck := fun _ => some "unexpected EOF" }

theorem script_only_single_generation_call_witness :
    orchestrateTransformation envBadSyntax 2 true loadedState "p" =
      (.step ⟨1, "def broken(", .error "Code syntax error: unexpected EOF"⟩,
       ⟨some sampleFrame, none,
        [⟨"p", ⟨"def broken(", [], "oops", false⟩,
          ⟨1, "def broken(", .error "Code syntax error: unexpected EOF"⟩, 1,
          true, none⟩],
        1⟩) := by
  have h := (script_only_single_generation_call envBadSyntax 2 loadedState
    sampleFrame "p" ⟨"def broken(", [], "oops", false⟩ rfl rfl rfl (by decide)).1
  simpa [loadedState, executeTransformation, envBadSyntax] using h

/-- C4 counterexample: with 6 prior steps the executor's contextual prompt
builder lists all six step descriptions — not at most the last 5 — and so
differs from the last-five rendering the specification describes. -/
theorem contextual_prompt_counterexample :
    buildContextualPrompt "p" ["s1", "s2", "s3", "s4", "s5", "s6"] [1] =
      "Previous pipeline steps:\n- Step 1: s1\n- Step 2: s2\n- Step 3: s3\n- Step 4: s4\n- Step 5: s5\n- Step 6: s6\n- Available sources: [1]\n\nCurrent request: p"
    ∧ buildContextualPrompt "p" ["s1", "s2", "s3", "s4", "s5", "s6"] [1] ≠
      lastFiveContextualPrompt "p" ["s1", "s2", "s3", "s4", "s5", "s6"] [1] := by
  constructor <;> decide

/-- C4 (amended): the contextual prompt builder is a pure function of
(current instruction, prior step descriptions, available source
identifiers): with no prior steps it returns the instruction plus the set
of available source identifiers, and otherwise it lists ALL prior step
descriptions (not only the last five), oldest first, numbered by their
absolute step index starting at 1, then the available sources, before the
current instruction. -/
theorem contextual_prompt_builder_lists_all_steps (instruction : String)
    (prior : List String) (sources : List Int) :
    buildContextualPrompt instruction prior sources =
      allStepsContextualPrompt instruction prior sources := by
  unfold buildContextualPrompt allStepsContextualPrompt
  by_cases h : prior = [] <;> simp [h, stepLines_enum]

/-- C9: a process block whose prompt is missing, empty, or whitespace-only
is silently skipped by the destination execution loop: executing it is
identical to executing the remaining order from the same loop state — so
no generation-gateway call is made, the dataset is unchanged, and no step
is appended to the executed-step history. -/
theorem blank_prompt_process_block_skipped (env : Env)
    (sources : List (Int × Frame)) (bm : List (Int × Block)) (destId bid : Int)
    (rest : List Int) (s : DestLoopState) (b : Block)
    (hb : lookupBlock bm bid = some b)
    (ht : b.blockType = some "process")
    (hp : pyStrip (b.prompt.getD "") = "") :
    execBlocks env sources bm destId (bid :: rest) s =
      execBlocks env sources bm destId rest s := by
  simp [execBlocks, hb, ht, hp]

/-- A process block whose prompt is whitespace only. -/
def blankProcBlock : Block :=
  { blockId := some 7, blockType := some "process", prompt := some "   " }

/-- A fresh destination loop state. -/
def destState0 : DestLoopState := ⟨none, [], initOrchState, none, none⟩

theorem blank_prompt_process_block_skipped_witness :
    execBlocks envAllFail [] [((7 : Int), blankProcBlock)] 9 [7] destState0 =
      .done destState0 := by
  rw [blank_prompt_process_block_skipped envAllFail []
    [((7 : Int), blankProcBlock)] 9 7 [] destState0 blankProcBlock rfl rfl
    (by decide)]
  rfl

/-! ## Claim theorems: pipeline executor -/

/-- A first-attempt success of `orchestrate_transformation`: one gateway
call, the dataset promoted to the script output, one success history
entry reporting one attempt. -/
lemma orchestrate_firstSuccess (env : Env) (st : OrchState) (d df2 : Frame)
    (prompt : String) (rec : AIRec) (R : Nat)
    (hd : st.data = some d) (hp : env.providerConfigured = true)
    (hc : env.callApi st.gwCalls (.orchestration d prompt) = .ok rec)
    (hcode : rec.code ≠ "")
    (hl : ∀ l ∈ rec.librariesNeeded, env.libInstalled l = true)
    (hr : env.runScript rec.code d = .ok df2)
    (hsv : env.saveTransformed df2 = none) :
    orchestrateTransformation env R false st prompt =
      (.step ⟨1, rec.code, .ok "Transformation completed successfully"⟩,
       ⟨some df2, st.dataPath,
        st.history ++ [⟨prompt, rec,
          ⟨1, rec.code, .ok "Transformation completed successfully"⟩, 1,
          false, none⟩],
        st.gwCalls + 1⟩) := by
  have hfind : rec.librariesNeeded.find? (fun l => !env.libInstalled l)
      = none := by
    rw [List.find?_eq_none]
    intro l hl2
    simp [hl l hl2]
  simp [orchestrateTransformation, hd, hp, orchestrateLoop, hc,
    executeTransformation, hcode, hfind, hr, hsv, isSuccess]

/-- The contextual prompt the acyclic first terminal's transform receives
in `cycleAfterSuccessBlocks`. -/
def cyclePrompt (q : String) : String :=
  buildContextualPrompt (pyStrip q)
    ["Loaded input source " ++ toString (1 : Int)] [1]

/-- A submission whose second terminal's chain carries a 4 ↔ 5
prerequisite cycle, preceded by a complete acyclic terminal
(source 1 → transform 2 → output 7 → destination 3). -/
def cycleAfterSuccessBlocks (src q pa pb : String) : List Block :=
  [ { blockId := some 1, blockType := some "input_source",
      csvSource := some src },
    { blockId := some 2, blockType := some "process", preReq := [1],
      prompt := some q },
    { blockId := some 7, blockType := some "output", preReq := [2],
      outputSource := some "email", outputData := some "u@example.com" },
    { blockId := some 3, blockType := some "destination", preReq := [7] },
    { blockId := some 4, blockType := some "process", preReq := [5],
      prompt := some pa },
    { blockId := some 5, blockType := some "process", preReq := [4],
      prompt := some pb },
    { blockId := some 6, blockType := some "destination", preReq := [4] } ]

/-- An environment whose generated scripts always execute successfully
and leave the dataframe as is. -/
def envAllOk : Env where
  callApi := fun _ _ => .ok ⟨"df = df", [], "identity", false⟩
  providerConfigured := true
  syntaxCheck := fun _ => none
  libInstalled := fun _ => true
  runScript := fun _ df => .ok df
  loadFile := fun _ => .ok sampleFrame
  saveTransformed := fun _ => none
  saveFinal := fun _ _ => none
  writeLatestOk := true
  writeLatestErr := ""
  vizOk := fun _ _ _ => true

/-- C2 counterexample: a submission with a 4 ↔ 5 prerequisite cycle on the
path to terminal 6, preceded by an acyclic terminal, is rejected with the
cycle error only after the first terminal fully executes — one
generation-gateway call was made and one run was recorded in the execution
history, refuting "no block is executed before the rejection". -/
theorem cycle_rejected_counterexample :
    (executePipeline envAllOk
        (.list (cycleAfterSuccessBlocks "x.csv" "clean" "pa" "pb"))).1 =
        .err "Cyclic dependencies detected in pipeline"
    ∧ (executePipeline envAllOk
        (.list (cycleAfterSuccessBlocks "x.csv" "clean" "pa" "pb"))).2.1.gwCalls
        = 1
    ∧ (executePipeline envAllOk
        (.list (cycleAfterSuccessBlocks "x.csv" "clean" "pa" "pb"))).2.2.length
        = 1 := ⟨rfl, rfl, rfl⟩

/-- C2 (amended): cycle rejection is per terminal and runs after sources
load and after earlier terminals execute.  (i) A submission whose only
terminal's dependency chain contains an `a` ↔ `b` prerequisite cycle is
rejected with the cycle error with nothing executed — fresh orchestrator
state (zero gateway calls) and empty execution history — for every
environment, all distinct ids and any prompts.  (ii) When an acyclic
terminal precedes the cyclic one, that terminal's blocks execute first
(a generation call is made, a transform and a run are recorded) and the
pipeline then returns the same cycle error. -/
theorem cycle_rejected_per_terminal :
    (∀ (env : Env) (a b dd : Int) (pa pb : Option String),
       a ≠ b → a ≠ dd → b ≠ dd →
       executePipeline env (.list
         [{ blockId := some a, blockType := some "process", preReq := [b],
            prompt := pa },
          { blockId := some b, blockType := some "process", preReq := [a],
            prompt := pb },
          { blockId := some dd, blockType := some "destination",
            preReq := [a] }]) =
         (.err "Cyclic dependencies detected in pipeline", initOrchState, []))
  ∧ (∀ (env : Env) (df df2 : Frame) (src q pa pb : String) (rec : AIRec),
       src ≠ "" → pyStrip q ≠ "" → env.providerConfigured = true →
       env.loadFile src = .ok df →
       env.callApi 0 (.orchestration df (cyclePrompt q)) = .ok rec →
       rec.code ≠ "" →
       (∀ l ∈ rec.librariesNeeded, env.libInstalled l = true) →
       env.runScript rec.code df = .ok df2 →
       env.saveTransformed df2 = none →
       env.saveFinal 7 df2 = none →
       env.writeLatestOk = true →
       (executePipeline env
          (.list (cycleAfterSuccessBlocks src q pa pb))).1 =
           .err "Cyclic dependencies detected in pipeline"
       ∧ (executePipeline env
          (.list (cycleAfterSuccessBlocks src q pa pb))).2.1.gwCalls = 1
       ∧ (executePipeline env
          (.list (cycleAfterSuccessBlocks src q pa pb))).2.1.history.length
           = 1
       ∧ (executePipeline env
          (.list (cycleAfterSuccessBlocks src q pa pb))).2.2.length = 1) := by
  constructor
  · intro env a b dd pa pb hab had hbd
    simp +decide [executePipeline, parseBlocks, checkRequiredFields,
      categorizeBlocks, categorizeGo, lookupBlock, loadInputSources, runDests,
      executeDestinationPipeline, getDependencyChain, depDfsRun, dfsFuel,
      topologicalSort, chainEdges, kahnRun, kahnDecrement, hab, had, hbd,
      Ne.symm hab, Ne.symm had, Ne.symm hbd]
  · intro env df df2 src q pa pb rec hsrc hq hp hload hcall hcode hl hrun
      hsavet hsavef hwl
    have horch := orchestrate_firstSuccess env
      ⟨some df, some (toString (1 : Int)), [], 0⟩ df df2 (cyclePrompt q) rec
      2 rfl hp hcall hcode hl hrun hsavet
    simp only [cyclePrompt] at horch
    refine ⟨?_, ?_, ?_, ?_⟩ <;>
      simp +decide [executePipeline, cycleAfterSuccessBlocks, parseBlocks,
        checkRequiredFields, categorizeBlocks, categorizeGo, lookupBlock,
        loadInputSources, truthy, hsrc, hload, runDests,
        executeDestinationPipeline, getDependencyChain, depDfsRun, dfsFuel,
        topologicalSort, chainEdges, kahnRun, kahnDecrement, execBlocks, hq,
        defaultMaxRetryAttempts, initOrchState, horch, hsavef, hwl,
        getDataPreview]

theorem cycle_rejected_per_terminal_witness :
    (executePipeline envAllFail (.list
       [{ blockId := some 10, blockType := some "process", preReq := [20],
          prompt := some "pa" },
        { blockId := some 20, blockType := some "process", preReq := [10],
          prompt := some "pb" },
        { blockId := some 30, blockType := some "destination",
          preReq := [10] }]) =
       (.err "Cyclic dependencies detected in pipeline", initOrchState, []))
  ∧ ((executePipeline envAllOk
        (.list (cycleAfterSuccessBlocks "x.csv" "clean" "pa" "pb"))).1 =
        .err "Cyclic dependencies detected in pipeline"
     ∧ (executePipeline envAllOk
        (.list (cycleAfterSuccessBlocks "x.csv" "clean" "pa" "pb"))).2.1.gwCalls
        = 1
     ∧ (executePipeline envAllOk
        (.list (cycleAfterSuccessBlocks "x.csv" "clean" "pa" "pb"))).2.1.history.length
        = 1
     ∧ (executePipeline envAllOk
        (.list (cycleAfterSuccessBlocks "x.csv" "clean" "pa" "pb"))).2.2.length
        = 1) := by
  obtain ⟨p1, p2⟩ := cycle_rejected_per_terminal
  exact ⟨p1 envAllFail 10 20 30 (some "pa") (some "pb") (by decide)
      (by decide) (by decide),
    p2 envAllOk sampleFrame sampleFrame "x.csv" "clean" "pa" "pb"
      ⟨"df = df", [], "identity", false⟩ (by decide) (by decide) rfl rfl rfl
      (by decide) (by simp) rfl rfl rfl rfl⟩

/-- The C3 submission: one shared source (block 1), a transform (block 2)
feeding the first terminal (block 3), and a transform (block 4) plus an
output (block 5) feeding the second terminal (block 6). -/
def twoTerminalBlocks (src q1 q2 : String) : List Block :=
  [ { blockId := some 1, blockType := some "input_source",
      csvSource := some src },
    { blockId := some 2, blockType := some "process", preReq := [1],
      prompt := some q1 },
    { blockId := some 3, blockType := some "destination", preReq := [2] },
    { blockId := some 4, blockType := some "process", preReq := [1],
      prompt := some q2 },
    { blockId := some 5, blockType := some "output", preReq := [4],
      outputSource := some "email", outputData := some "u@example.com" },
    { blockId := some 6, blockType := some "destination", preReq := [5] } ]

/-- The second terminal's chain of `twoTerminalBlocks`, on its own. -/
def secondTerminalBlocks (src q2 : String) : List Block :=
  [ { blockId := some 1, blockType := some "input_source",
      csvSource := some src },
    { blockId := some 4, blockType := some "process", preReq := [1],
      prompt := some q2 },
    { blockId := some 5, blockType := some "output", preReq := [4],
      outputSource := some "email", outputData := some "u@example.com" },
    { blockId := some 6, blockType := some "destination", preReq := [5] } ]

/-- The contextual prompt the first terminal's transform step receives. -/
def firstStepPrompt (q1 : String) : String :=
  buildContextualPrompt (pyStrip q1)
    ["Loaded input source " ++ toString (1 : Int)] [1]

/-- C3: in a submission with two terminals where the first terminal's
transform step fails (its generated scripts always fault) and the second
terminal's run would succeed on its own, `execute_pipeline` stops at the
first failing terminal and returns that single structured failure — naming
the failing block (2) and terminal (3) — with an empty execution history
and only the first terminal's three gateway calls made: no success entry
exists for the second terminal. -/
theorem first_failure_wins (env : Env) (df : Frame) (src q1 q2 : String)
    (hsrc : src ≠ "") (hq1 : pyStrip q1 ≠ "")
    (hp : env.providerConfigured = true)
    (hload : env.loadFile src = .ok df)
    (H1 : ∀ i, allFailRec env
      (env.callApi i (.orchestration df (firstStepPrompt q1))))
    (H2 : ∀ i fc em, allFailRec env
      (env.callApi i (.recovery df (firstStepPrompt q1) fc em)))
    (Hsecond : ∃ n rs hist st,
      executePipeline env (.list (secondTerminalBlocks src q2)) =
        (.ok n rs hist, st, hist)) :
    ∃ e rec,
      executePipeline env (.list (twoTerminalBlocks src q1 q2)) =
        (.failed e 2 (some (pyStrip q1)) 3,
         ⟨some df, some (toString (1 : Int)),
          [⟨firstStepPrompt q1, rec, ⟨3, rec.code, .error e⟩, 3, false,
            some "failed"⟩],
          3⟩,
         []) := by
  obtain ⟨rec, e, horch⟩ := orchestrate_allFail env
    ⟨some df, some (toString (1 : Int)), [], 0⟩ df (firstStepPrompt q1) rfl
    hp H1 H2
  refine ⟨e, rec, ?_⟩
  simp only [firstStepPrompt] at horch
  simp +decide [executePipeline, twoTerminalBlocks, parseBlocks,
    checkRequiredFields, categorizeBlocks, categorizeGo, lookupBlock,
    loadInputSources, truthy, hsrc, hload, runDests,
    executeDestinationPipeline, getDependencyChain, depDfsRun, dfsFuel,
    topologicalSort, chainEdges, kahnRun, kahnDecrement, execBlocks, hq1,
    defaultMaxRetryAttempts, firstStepPrompt, initOrchState, horch]

/-- A gateway that answers a faulting script for the first terminal's
transform prompt (and its recovery prompts) and a working script for
anything else. -/
def envFirstFail : Env where
  callApi := fun _ gp => match gp with
    | .orchestration _ up =>
        if up = firstStepPrompt "clean" then .ok ⟨"bad", [], "e", false⟩
        else .ok ⟨"good", [], "e", false⟩
    | .recovery _ _ _ _ => .ok ⟨"bad", [], "e", false⟩
  providerConfigured := true
  syntaxCheck := fun _ => none
  libInstalled := fun _ => true
  runScript := fun c df => if c = "bad" then .fault "oops" else .ok df
  loadFile := fun _ => .ok sampleFrame
  saveTransformed := fun _ => none
  saveFinal := fun _ _ => none
  writeLatestOk := true
  writeLatestErr := ""
  vizOk := fun _ _ _ => true

/-- The execution-history record of the second terminal running alone. -/
def secondTerminalRecord : HistRecord :=
  ⟨6, none, none, none, [1, 4, 5, 6],
   ["Loaded input source 1", "Block 4: other",
    "Prepared data for email delivery to u@example.com",
    "Saved final dataset: clean_5.csv",
    "Wrote latest dataset for visualization: output/1_latest.csv"],
   some (2, 2)⟩

theorem first_failure_wins_witness :
    ∃ e rec,
      executePipeline envFirstFail
        (.list (twoTerminalBlocks "x.csv" "clean" "other")) =
        (.failed e 2 (some (pyStrip "clean")) 3,
         ⟨some sampleFrame, some (toString (1 : Int)),
          [⟨firstStepPrompt "clean", rec, ⟨3, rec.code, .error e⟩, 3, false,
            some "failed"⟩],
          3⟩,
         []) :=
  first_failure_wins envFirstFail sampleFrame "x.csv" "clean" "other"
    (by decide) (by decide) rfl rfl
    (fun i => ⟨⟨"bad", [], "e", false⟩, by simp [envFirstFail], by decide, by simp,
      fun d2 => ⟨"oops", by simp [envFirstFail]⟩⟩)
    (fun i fc em => ⟨⟨"bad", [], "e", false⟩, rfl, by decide, by simp,
      fun d2 => ⟨"oops", by simp [envFirstFail]⟩⟩)
    ⟨1,
     [.ok 6 [1, 4, 5, 6]
        (some ⟨(2, 2), ["a", "b"], [["1", "2"], ["3", "4"]]⟩)
        ⟨"data/clean_5.csv", "clean_5.csv", 5⟩
        ⟨"skipped", some "No destination provided in destination block"⟩],
     [secondTerminalRecord],
     ⟨some sampleFrame, some "1",
      [⟨"Previous pipeline steps:\n- Step 1: Loaded input source 1\n- Available sources: [1]\n\nCurrent request: other",
        ⟨"good", [], "e", false⟩,
        ⟨1, "good", .ok "Transformation completed successfully"⟩, 1, false,
        none⟩],
      1⟩,
     by decide⟩

/-! ## Helper lemmas for submission validation (C8) -/

/-- The five `block_type` values `_categorize_blocks` accepts. -/
def recognizedTypes : List String :=
  ["input_source", "process", "output", "destination", "visualization"]

lemma lookupBlock_eq_none_iff (bm : List (Int × Block)) (i : Int) :
    lookupBlock bm i = none ↔ i ∉ bm.map Prod.fst := by
  unfold lookupBlock
  cases h : bm.find? (fun p => p.1 == i) with
  | none =>
    rw [List.find?_eq_none] at h
    refine iff_of_true rfl ?_
    intro hmem
    obtain ⟨q, hq, hfst⟩ := List.mem_map.mp hmem
    exact absurd (by simp [hfst]) (h q hq)
  | some q =>
    have hq := List.find?_some h
    have hmem := List.mem_of_find?_eq_some h
    exact iff_of_false (by simp)
      (not_not_intro (List.mem_map.mpr ⟨q, hmem, by simpa using hq⟩))

lemma checkRequiredFields_of_missing : ∀ bs : List Block,
    (∃ b ∈ bs, b.blockId = none ∨ b.blockType = none) →
    ∃ m, checkRequiredFields bs = some m ∧
      (m = "Each block must have a \x27block_id\x27" ∨
       m = "Each block must have a \x27block_type\x27") := by
  intro bs
  induction bs with
  | nil => rintro ⟨b, hb, _⟩; exact absurd hb (List.not_mem_nil b)
  | cons b bs ih =>
    rintro ⟨c, hc, hmiss⟩
    by_cases hid : b.blockId.isNone
    · exact ⟨_, by simp [checkRequiredFields, hid], .inl rfl⟩
    · by_cases hty : b.blockType.isNone
      · exact ⟨_, by simp [checkRequiredFields, hid, hty], .inr rfl⟩
      · rcases List.mem_cons.mp hc with hcb | hcbs
        · subst hcb
          rcases hmiss with h | h
          · rw [h] at hid; simp at hid
          · rw [h] at hty; simp at hty
        · obtain ⟨m, hm, hor⟩ := ih ⟨c, hcbs, hmiss⟩
          exact ⟨m, by simp [checkRequiredFields, hid, hty, hm], hor⟩

lemma checkRequiredFields_of_wf : ∀ bs : List Block,
    (∀ b ∈ bs, b.blockId ≠ none ∧ b.blockType ≠ none) →
    checkRequiredFields bs = none := by
  intro bs
  induction bs with
  | nil => intro _; rfl
  | cons b bs ih =>
    intro h
    obtain ⟨hid, hty⟩ := h b (List.mem_cons_self b bs)
    have hid' : ¬ b.blockId.isNone := by simp [Option.isNone_iff_eq_none, hid]
    have hty' : ¬ b.blockType.isNone := by
      simp [Option.isNone_iff_eq_none, hty]
    simp [checkRequiredFields, hid', hty',
      ih (fun c hc => h c (List.mem_cons_of_mem b hc))]

lemma executePipeline_parse_error (env : Env) (bs : List Block) (m : String)
    (h : checkRequiredFields bs = some m) :
    executePipeline env (.list bs) = (.err m, initOrchState, []) := by
  simp [executePipeline, parseBlocks, h]

lemma executePipeline_categorize_error (env : Env) (bs : List Block)
    (m : String) (hp : checkRequiredFields bs = none)
    (h : categorizeBlocks bs = .error m) :
    executePipeline env (.list bs) = (.err m, initOrchState, []) := by
  simp [executePipeline, parseBlocks, hp, h]

lemma categorizeGo_duplicate : ∀ (bs : List Block) (acc : Categorized),
    (∀ b ∈ bs, b.blockId ≠ none ∧ b.blockType ≠ none) →
    (∀ b ∈ bs, ∀ t, b.blockType = some t → t ∈ recognizedTypes) →
    (acc.blockMap.map Prod.fst).Nodup →
    ¬ ((acc.blockMap.map Prod.fst) ++ bs.filterMap Block.blockId).Nodup →
    ∃ i : Int, categorizeGo bs acc =
      .error ("Duplicate block_id found: " ++ toString i) := by
  intro bs
  induction bs with
  | nil =>
    intro acc _ _ hacc hbad
    simp only [List.filterMap_nil, List.append_nil] at hbad
    exact absurd hacc hbad
  | cons b bs ih =>
    intro acc hwf htypes hacc hbad
    obtain ⟨hid, hty⟩ := hwf b (List.mem_cons_self b bs)
    rcases hbid : b.blockId with _ | bid
    · exact absurd hbid hid
    rcases hbty : b.blockType with _ | ty
    · exact absurd hbty hty
    rcases hlk : lookupBlock acc.blockMap bid with _ | v
    · have hnotin : bid ∉ acc.blockMap.map Prod.fst :=
        (lookupBlock_eq_none_iff _ _).mp hlk
      have hfm : (b :: bs).filterMap Block.blockId =
          bid :: bs.filterMap Block.blockId := by
        simp [hbid]
      rw [hfm] at hbad
      have hacc' : ((acc.blockMap ++ [(bid, b)]).map Prod.fst).Nodup := by
        simp [List.nodup_append, hacc, hnotin]
      have hbad' : ¬ (((acc.blockMap ++ [(bid, b)]).map Prod.fst) ++
          bs.filterMap Block.blockId).Nodup := by
        intro hcon
        apply hbad
        simpa [List.append_assoc] using hcon
      have hmem := htypes b (List.mem_cons_self b bs) ty hbty
      have hwf' : ∀ c ∈ bs, c.blockId ≠ none ∧ c.blockType ≠ none :=
        fun c hc => hwf c (List.mem_cons_of_mem b hc)
      have htypes' : ∀ c ∈ bs, ∀ t, c.blockType = some t →
          t ∈ recognizedTypes :=
        fun c hc => htypes c (List.mem_cons_of_mem b hc)
      simp only [recognizedTypes, List.mem_cons, List.mem_singleton,
        List.not_mem_nil, or_false] at hmem
      rcases hmem with h | h | h | h | h <;> subst h <;>
        (simp +decide [categorizeGo, hbid, hbty, hlk]
         exact ih _ hwf' htypes' hacc' hbad')
    · exact ⟨bid, by simp [categorizeGo, hbid, hbty, hlk]⟩

lemma categorizeGo_unknown : ∀ (bs : List Block) (acc : Categorized),
    (∀ b ∈ bs, b.blockId ≠ none ∧ b.blockType ≠ none) →
    ((acc.blockMap.map Prod.fst) ++ bs.filterMap Block.blockId).Nodup →
    (∃ b ∈ bs, ∃ t, b.blockType = some t ∧ t ∉ recognizedTypes) →
    ∃ t, t ∉ recognizedTypes ∧
      categorizeGo bs acc = .error ("Unknown block_type: " ++ t) := by
  intro bs
  induction bs with
  | nil =>
    rintro acc _ _ ⟨b, hb, _⟩
    exact absurd hb (List.not_mem_nil b)
  | cons b bs ih =>
    rintro acc hwf hnd ⟨c, hc, t0, ht0, ht0n⟩
    obtain ⟨hid, hty⟩ := hwf b (List.mem_cons_self b bs)
    rcases hbid : b.blockId with _ | bid
    · exact absurd hbid hid
    rcases hbty : b.blockType with _ | ty
    · exact absurd hbty hty
    have hfm : (b :: bs).filterMap Block.blockId =
        bid :: bs.filterMap Block.blockId := by
      simp [hbid]
    rw [hfm] at hnd
    have hnotin : bid ∉ acc.blockMap.map Prod.fst := by
      intro hmem
      rw [List.nodup_append] at hnd
      exact (hnd.2.2 hmem) (List.mem_cons_self _ _)
    have hlk : lookupBlock acc.blockMap bid = none :=
      (lookupBlock_eq_none_iff _ _).mpr hnotin
    by_cases hrec : ty ∈ recognizedTypes
    · have hcbs : c ∈ bs := by
        rcases List.mem_cons.mp hc with hcb | h
        · subst hcb
          rw [hbty] at ht0
          injection ht0 with h'
          subst h'
          exact absurd hrec ht0n
        · exact h
      have hnd' : (((acc.blockMap ++ [(bid, b)]).map Prod.fst) ++
          bs.filterMap Block.blockId).Nodup := by
        simpa [List.append_assoc] using hnd
      have hwf' : ∀ x ∈ bs, x.blockId ≠ none ∧ x.blockType ≠ none :=
        fun x hx => hwf x (List.mem_cons_of_mem b hx)
      simp only [recognizedTypes, List.mem_cons, List.mem_singleton,
        List.not_mem_nil, or_false] at hrec
      rcases hrec with h | h | h | h | h <;> subst h <;>
        (simp +decide [categorizeGo, hbid, hbty, hlk]
         exact ih _ hwf' hnd' ⟨c, hcbs, t0, ht0, ht0n⟩)
    · have hrec' := hrec
      simp only [recognizedTypes, List.mem_cons, List.mem_singleton,
        List.not_mem_nil, or_false, not_or] at hrec
      obtain ⟨h1, h2, h3, h4, h5⟩ := hrec
      exact ⟨ty, hrec',
        by simp [categorizeGo, hbid, hbty, hlk, h1, h2, h3, h4, h5]⟩

/-- C8 counterexample: a submission consisting of one block of type
`visualization` — outside the four block types the claim recognizes — is
accepted (the run returns the success envelope), not rejected with a
structured error. -/
theorem malformed_submission_counterexample :
    executePipeline envAllFail
      (.list [{ blockId := some 1, blockType := some "visualization" }]) =
      (.ok 0 [] [], initOrchState, []) := rfl

/-- C8 (amended): a submission is rejected before any execution — fresh
orchestrator state, empty history — when a block lacks an id or a type
(fixed message naming the missing field), when ids collide among
recognized-typed blocks (message carrying the colliding id), when a block's
type lies outside the five recognized types `input_source`, `process`,
`output`, `destination`, `visualization` (message carrying the offending
type name, not the block id), or when an executed terminal's prerequisite
references a block id absent from the submission (message carrying the
missing id). -/
theorem malformed_submission_rejected (env : Env) :
    (∀ bs : List Block, (∃ b ∈ bs, b.blockId = none ∨ b.blockType = none) →
       ∃ m, executePipeline env (.list bs) = (.err m, initOrchState, []) ∧
         (m = "Each block must have a \x27block_id\x27" ∨
          m = "Each block must have a \x27block_type\x27"))
  ∧ (∀ bs : List Block,
       (∀ b ∈ bs, b.blockId ≠ none ∧ b.blockType ≠ none) →
       (∀ b ∈ bs, ∀ t, b.blockType = some t → t ∈ recognizedTypes) →
       ¬ (bs.filterMap Block.blockId).Nodup →
       ∃ i : Int, executePipeline env (.list bs) =
         (.err ("Duplicate block_id found: " ++ toString i),
          initOrchState, []))
  ∧ (∀ bs : List Block,
       (∀ b ∈ bs, b.blockId ≠ none ∧ b.blockType ≠ none) →
       (bs.filterMap Block.blockId).Nodup →
       (∃ b ∈ bs, ∃ t, b.blockType = some t ∧ t ∉ recognizedTypes) →
       ∃ t, t ∉ recognizedTypes ∧ executePipeline env (.list bs) =
         (.err ("Unknown block_type: " ++ t), initOrchState, []))
  ∧ (∀ dId m : Int, m ≠ dId →
       executePipeline env (.list
         [{ blockId := some dId, blockType := some "destination",
            preReq := [m] }]) =
         (.err ("Block " ++ toString m ++ " referenced but not found"),
          initOrchState, [])) := by
  refine ⟨?_, ?_, ?_, ?_⟩
  · intro bs hmiss
    obtain ⟨m, hm, hor⟩ := checkRequiredFields_of_missing bs hmiss
    exact ⟨m, executePipeline_parse_error env bs m hm, hor⟩
  · intro bs hwf htypes hdup
    obtain ⟨i, hi⟩ := categorizeGo_duplicate bs ⟨[], [], [], [], []⟩ hwf
      htypes (by simp) (by simpa using hdup)
    exact ⟨i, executePipeline_categorize_error env bs _
      (checkRequiredFields_of_wf bs hwf) hi⟩
  · intro bs hwf hnd hbad
    obtain ⟨t, htn, ht⟩ := categorizeGo_unknown bs ⟨[], [], [], [], []⟩ hwf
      (by simpa using hnd) hbad
    exact ⟨t, htn, executePipeline_categorize_error env bs _
      (checkRequiredFields_of_wf bs hwf) ht⟩
  · intro dId m hne
    simp +decide [executePipeline, parseBlocks, checkRequiredFields,
      categorizeBlocks, categorizeGo, lookupBlock, loadInputSources, runDests,
      executeDestinationPipeline, getDependencyChain, depDfsRun, dfsFuel,
      topologicalSort, hne, Ne.symm hne]

theorem malformed_submission_rejected_witness :
    (∃ m, executePipeline envAllFail
        (.list [{ blockType := some "process" }]) =
        (.err m, initOrchState, []) ∧
        (m = "Each block must have a \x27block_id\x27" ∨
         m = "Each block must have a \x27block_type\x27"))
  ∧ (∃ i : Int, executePipeline envAllFail (.list
        [{ blockId := some 4, blockType := some "process" },
         { blockId := some 4, blockType := some "output" }]) =
        (.err ("Duplicate block_id found: " ++ toString i),
         initOrchState, []))
  ∧ (∃ t, t ∉ recognizedTypes ∧ executePipeline envAllFail (.list
        [{ blockId := some 4, blockType := some "transform" }]) =
        (.err ("Unknown block_type: " ++ t), initOrchState, []))
  ∧ executePipeline envAllFail (.list
        [{ blockId := some 9, blockType := some "destination",
           preReq := [5] }]) =
        (.err ("Block " ++ toString (5 : Int) ++ " referenced but not found"),
         initOrchState, []) := by
  obtain ⟨p1, p2, p3, p4⟩ := malformed_submission_rejected envAllFail
  refine ⟨p1 _ (by decide), p2 _ (by decide)
      (by simp +decide [List.forall_mem_cons, recognizedTypes]) (by decide),
    p3 _ (by decide) (by decide)
      ⟨{ blockId := some 4, blockType := some "transform" }, by decide,
       "transform", rfl, by decide⟩,
    p4 9 5 (by decide)⟩

end Datagent
